import Mathlib

/-!
Verification development for the RC-app controller (React Native client,
`src/app/index.tsx`).  The raw endpoint strings manipulated by the app are
modelled as `List Char`; JavaScript numbers appearing in the connection
backoff are naturals, and overlay coordinates are integers (no division is
involved in any modelled operation).

Modelled components:
* the endpoint resolver inlined in `connectToServer` (control WebSocket URL)
  and in `DraggableResizableCamera` (camera media URL);
* the reconnect state machine formed by `connectToServer`, the `ws.onopen` /
  `ws.onclose` handlers, the scheduled reconnect timer and
  `handleSaveSettings`;
* the command codec (`sendCommand`, `handleThrottleChange`, and the settings
  message effect);
* the overlay geometry handlers (`dragPanResponder`, `resizePanResponder`)
  together with their persistence calls.
-/

/-- Convert a string literal to the `List Char` representation used by the
embedding. -/
def strToChars (s : String) : List Char := s.toList

/-- JavaScript `String.prototype.trim` whitespace test, restricted to the
ASCII whitespace actually relevant here. -/
def isWsChar (c : Char) : Bool := c.isWhitespace

/-- Drop leading whitespace. -/
def trimLeftChars (s : List Char) : List Char := s.dropWhile isWsChar

/-- Model of `piIP.trim()`: drop whitespace at both ends. -/
def trimChars (s : List Char) : List Char :=
  ((trimLeftChars s).reverse.dropWhile isWsChar).reverse

/-- Lower-case every character (for the case-insensitive scheme regexes). -/
def lowerList (s : List Char) : List Char := s.map Char.toLower

/-- `s` starts (case-insensitively) with the lower-case pattern `p`. -/
def startsWithLower (p s : List Char) : Prop := lowerList (s.take p.length) = p

instance (p s : List Char) : Decidable (startsWithLower p s) :=
  inferInstanceAs (Decidable (_ = _))

/-- Model of `cleanIP.replace(/^(https?:\/\/)/i, '')`: strip one leading
`http://` or `https://` (case-insensitive).  The two alternatives are
mutually exclusive on any string, so testing the longer one first is
faithful to the regex. -/
def stripHttpScheme (s : List Char) : List Char :=
  if startsWithLower (strToChars "https://") s then s.drop 8
  else if startsWithLower (strToChars "http://") s then s.drop 7
  else s

/-- Model of `cleanIP.replace(/^(wss?:\/\/)/i, '')`: strip one leading
`ws://` or `wss://` (case-insensitive). -/
def stripWsScheme (s : List Char) : List Char :=
  if startsWithLower (strToChars "wss://") s then s.drop 6
  else if startsWithLower (strToChars "ws://") s then s.drop 5
  else s

/-- Model of `cleanIP.replace(/\/+$/, '')`: remove every trailing slash. -/
def stripSlashesChars (s : List Char) : List Char :=
  (s.reverse.dropWhile (fun c => c == '/')).reverse

/-- Model of `String.prototype.includes`: `pat` occurs as a contiguous
subsequence of `s`. -/
def containsSeq (pat : List Char) : List Char → Bool
  | [] => pat.isEmpty
  | c :: rest => pat.isPrefixOf (c :: rest) || containsSeq pat rest

/-- The ngrok-tunnel classification of `connectToServer` /
`DraggableResizableCamera`:
`cleanIP.includes('.ngrok-free.dev') || cleanIP.includes('.ngrok-free.app')
 || cleanIP.includes('.ngrok.')`. -/
def isNgrokHost (s : List Char) : Bool :=
  containsSeq (strToChars ".ngrok-free.dev") s ||
    containsSeq (strToChars ".ngrok-free.app") s ||
      containsSeq (strToChars ".ngrok.") s

/-- Model of `cleanIP.replace(/:\d+$/, '')`: remove a trailing `:digits`
group when the string ends in one. -/
def stripTrailingPort (s : List Char) : List Char :=
  let r := s.reverse
  let ds := r.takeWhile Char.isDigit
  if ds ≠ [] ∧ (r.drop ds.length).head? = some ':' then
    ((r.drop ds.length).drop 1).reverse
  else s

/-- The cleaned endpoint computed in `connectToServer` (index.tsx lines
146-149): trim, strip one `http(s)://`, strip one `ws(s)://`, strip
trailing slashes. -/
def cleanIP (raw : List Char) : List Char :=
  stripSlashesChars (stripWsScheme (stripHttpScheme (trimChars raw)))

/-- The cleaned endpoint computed in `DraggableResizableCamera` (line 879);
identical to `cleanIP` except that the component does not call `trim()`
(the stored endpoint was already trimmed by `handleSaveSettings`). -/
def cameraCleanIP (raw : List Char) : List Char :=
  stripSlashesChars (stripWsScheme (stripHttpScheme raw))

/-- Control WebSocket URL derived from a cleaned endpoint (index.tsx lines
153-161). -/
def controlUrlOfClean (c : List Char) : List Char :=
  if isNgrokHost c then strToChars "wss://" ++ stripTrailingPort c
  else if c.contains ':' then strToChars "ws://" ++ c
  else strToChars "ws://" ++ c ++ strToChars ":8765"

/-- Control WebSocket URL built by `connectToServer` from the raw stored
endpoint. -/
def controlUrl (raw : List Char) : List Char := controlUrlOfClean (cleanIP raw)

/-- Camera media URL derived from a cleaned endpoint (index.tsx lines
883-891). -/
def cameraUrlOfClean (c : List Char) : List Char :=
  if isNgrokHost c then
    strToChars "https://" ++ stripTrailingPort c ++ strToChars "/camera"
  else if c.contains ':' then strToChars "http://" ++ c ++ strToChars "/camera"
  else strToChars "http://" ++ c ++ strToChars ":8765/camera"

/-- Camera media URL built by `DraggableResizableCamera`. -/
def cameraUrl (raw : List Char) : List Char := cameraUrlOfClean (cameraCleanIP raw)

/-- The transport descriptor the spec calls `EndpointDescriptor`: control
URL plus media base URL, both derived from the same raw endpoint. -/
structure EndpointDescriptor where
  controlURL : List Char
  mediaBaseURL : List Char
deriving DecidableEq, Repr

/-- Endpoint resolution: `connectToServer` refuses a raw endpoint that is
empty after trimming (`!piIP || piIP.trim() === ""`, the spec's
`InvalidEndpoint`, modelled as `none`); otherwise the control URL and the
camera URL are derived as in the source. -/
def resolveEndpoint (raw : List Char) : Option EndpointDescriptor :=
  if trimChars raw = [] then none
  else some { controlURL := controlUrl raw, mediaBaseURL := cameraUrl raw }

/-- An endpoint string that does not itself begin (case-insensitively) with
`http:`, `https:`, `ws:` or `wss:`.  Ordinary hosts, IPv4 addresses,
bracketed IPv6 literals and `host:port` forms all satisfy this. -/
def noSchemeStart (s : List Char) : Prop :=
  ¬ startsWithLower (strToChars "http:") s ∧
    ¬ startsWithLower (strToChars "https:") s ∧
      ¬ startsWithLower (strToChars "ws:") s ∧
        ¬ startsWithLower (strToChars "wss:") s

instance (s : List Char) : Decidable (noSchemeStart s) :=
  inferInstanceAs (Decidable (_ ∧ _ ∧ _ ∧ _))

/-- Connection-manager state: `connectionAttempts`, the pending reconnect
timer (`reconnectTimeoutRef.current`, carrying its delay in milliseconds
when armed), and whether a WebSocket handle is live
(`wsRef.current.readyState` is CONNECTING or OPEN). -/
structure ConnState where
  attempts : Nat
  timer : Option Nat
  socketActive : Bool
deriving DecidableEq, Repr

/-- The backoff computed in `ws.onclose`:
`Math.min(3000 + currentAttempts * 2000, 15000)`. -/
def backoffDelay (attempts : Nat) : Nat := min (3000 + attempts * 2000) 15000

/-- Events driving the connection manager: a `connectToServer` invocation
with a valid endpoint, the transport `onopen` and `onclose` callbacks, the
reconnect timer firing, and `handleSaveSettings` committing a new endpoint
(its delayed `connectToServer` call is a subsequent `connect` event). -/
inductive ConnEvent where
  | connect
  | openEvent
  | closeEvent
  | timerFire
  | configure
deriving DecidableEq, Repr

/-- One step of the connection manager, translated handler by handler from
`connectToServer`, `ws.onopen`, `ws.onclose`, the timer callback and
`handleSaveSettings` in index.tsx. -/
def connStep (s : ConnState) : ConnEvent → ConnState
  | .connect =>
      -- connectToServer: early return while a socket is CONNECTING/OPEN or
      -- a reconnect is already scheduled; otherwise increment
      -- connectionAttempts and create the socket (lines 134-167).
      if s.socketActive ∨ s.timer.isSome then s
      else { s with attempts := s.attempts + 1, socketActive := true }
  | .openEvent =>
      -- ws.onopen: reset the attempt counter and cancel any pending
      -- reconnect timer (lines 169-178).
      { s with attempts := 0, timer := none }
  | .closeEvent =>
      -- ws.onclose: the socket is now closed; schedule one reconnect only
      -- if no timer is pending and fewer than 5 attempts were made
      -- (lines 193-225); the attempt counter itself is left unchanged.
      if s.timer = none ∧ s.attempts < 5 then
        { s with socketActive := false, timer := some (backoffDelay s.attempts) }
      else { s with socketActive := false }
  | .timerFire =>
      -- the scheduled callback clears the ref and re-invokes
      -- connectToServer (lines 213-216).
      match s.timer with
      | none => s
      | some _ =>
          if s.socketActive then { s with timer := none }
          else { s with timer := none, attempts := s.attempts + 1,
                        socketActive := true }
  | .configure =>
      -- handleSaveSettings: disconnectFromServer (cancel timer, close the
      -- socket, reset attempts) plus its own setConnectionAttempts(0)
      -- (lines 295-311).
      { attempts := 0, timer := none, socketActive := false }

/-- Run a sequence of events from a starting state. -/
def runConn (s : ConnState) (evs : List ConnEvent) : ConnState :=
  evs.foldl connStep s

/-- The state at app start: no attempts, no timer, no socket. -/
def initialConn : ConnState := { attempts := 0, timer := none, socketActive := false }

/-- A run in which five consecutive connection attempts all fail, with no
successful open in between. -/
def fiveFailureRun : List ConnEvent :=
  [.connect, .closeEvent, .timerFire, .closeEvent, .timerFire, .closeEvent,
   .timerFire, .closeEvent, .timerFire, .closeEvent]

/-- JSON values appearing in the wire messages. -/
inductive JVal where
  | num (n : Int)
  | boolVal (b : Bool)
  | str (s : List Char)
deriving DecidableEq, Repr

/-- A wire message: the ordered field list of the serialized object
literal. -/
abbrev WireMsg := List (List Char × JVal)

/-- The object literal serialized by `sendCommand`:
`{ type, value, gear, lights: lightsOn, auto: autoMode }` (line 315). -/
def axisMessage (t : List Char) (v : JVal) (gear : Nat) (lights auto : Bool) :
    WireMsg :=
  [(strToChars "type", .str t), (strToChars "value", v),
   (strToChars "gear", .num gear), (strToChars "lights", .boolVal lights),
   (strToChars "auto", .boolVal auto)]

/-- `sendCommand`: the message is sent only while the socket is OPEN
(lines 313-319). -/
def sendCommand (linkOpen : Bool) (t : List Char) (v : JVal) (gear : Nat)
    (lights auto : Bool) : Option WireMsg :=
  if linkOpen then some (axisMessage t v gear lights auto) else none

/-- The settings message sent by the effect on `[gear, lightsOn, autoMode]`:
`{ type: "settings", gear, lights: lightsOn, auto: autoMode }`
(lines 358-368). -/
def settingsMessage (gear : Nat) (lights auto : Bool) : WireMsg :=
  [(strToChars "type", .str (strToChars "settings")),
   (strToChars "gear", .num gear), (strToChars "lights", .boolVal lights),
   (strToChars "auto", .boolVal auto)]

/-- `handleThrottleChange` (lines 321-330): the two commands issued for a
throttle value, as the wire messages produced while the link is open. -/
def handleThrottleChange (v : Int) (gear : Nat) (lights auto : Bool) :
    List WireMsg :=
  if 0 ≤ v then
    [axisMessage (strToChars "throttle_forward") (.num v) gear lights auto,
     axisMessage (strToChars "throttle_backward") (.num 0) gear lights auto]
  else
    [axisMessage (strToChars "throttle_forward") (.num 0) gear lights auto,
     axisMessage (strToChars "throttle_backward") (.num |v|) gear lights auto]

/-- A write to the persistent store: `saveCameraPosition` or
`saveCameraSize`. -/
inductive StoreWrite where
  | position (x y : Int)
  | size (w h : Int)
deriving DecidableEq, Repr

/-- Committed overlay state: position (`cameraPosition`) and size
(`cameraSize`). -/
structure CamState where
  px : Int
  py : Int
  w : Int
  h : Int
deriving DecidableEq, Repr

/-- `dragPanResponder.onPanResponderRelease` (lines 916-922): clamp the
released position into the viewport and persist it via
`onPositionChange` → `saveCameraPosition`. -/
def dragRelease (vw vh : Int) (s : CamState) (dx dy : Int) :
    CamState × List StoreWrite :=
  ({ s with px := max 0 (min (vw - s.w) (s.px + dx)),
            py := max 0 (min (vh - s.h) (s.py + dy)) },
   [.position (max 0 (min (vw - s.w) (s.px + dx)))
      (max 0 (min (vh - s.h) (s.py + dy)))])

/-- `dragPanResponder.onPanResponderMove` (lines 912-915): a pure
`Animated.event` — no committed state change and no store write. -/
def dragMove (s : CamState) : CamState × List StoreWrite := (s, [])

/-- `resizePanResponder.onPanResponderMove` (lines 938-942): clamp the new
size from the size captured at gesture grant (`initialSize`) plus the
cumulative delta, and hand it to `onSizeChange` → `saveCameraSize`. -/
def resizeMove (vw vh : Int) (s : CamState) (iw ih dx dy : Int) :
    CamState × List StoreWrite :=
  ({ s with w := max 150 (min (vw - 40) (iw + dx)),
            h := max 100 (min (vh - 100) (ih + dy)) },
   [.size (max 150 (min (vw - 40) (iw + dx)))
      (max 100 (min (vh - 100) (ih + dy)))])

/-- `resizePanResponder.onPanResponderRelease` (lines 943-947): only clears
the `isResizing` flag — no state change and no store write. -/
def resizeRelease (s : CamState) : CamState × List StoreWrite := (s, [])

/-- C1: evaluating the resolver at the plain no-port endpoint
`"192.168.1.100"` shows what the code does: the control URL gets the
default port 8765 as claimed, but the media URL also reuses port 8765
(`http://192.168.1.100:8765/camera`), not the camera default 8080 stated
by the claim and by the repository's own setup documentation. -/
theorem plain_default_port_resolution :
    resolveEndpoint (strToChars "192.168.1.100") =
      some { controlURL := strToChars "ws://192.168.1.100:8765",
             mediaBaseURL := strToChars "http://192.168.1.100:8765/camera" } := by
  decide

/-- C2: once five attempts have been made, a further transport failure
schedules no timer (the timer field is untouched); the concrete
five-failure run ends exhausted, with no timer pending; and a
reconfiguration resets the attempt counter to 0 after which the next
connect event resumes connecting with attempt counter 1. -/
theorem reconnect_exhaustion_and_reconfigure (s : ConnState)
    (h : 5 ≤ s.attempts) :
    (connStep s .closeEvent).timer = s.timer ∧
    runConn initialConn fiveFailureRun =
      { attempts := 5, timer := none, socketActive := false } ∧
    connStep s .configure = initialConn ∧
    connStep (connStep s .configure) .connect =
      { attempts := 1, timer := none, socketActive := true } := by
  have h1 : (connStep s .closeEvent).timer = s.timer := by
    simp only [connStep]
    rw [if_neg (by intro hc; omega)]
  refine ⟨h1, by decide, rfl, ?_⟩
  show connStep initialConn .connect =
    { attempts := 1, timer := none, socketActive := true }
  decide

/-- C2 witness: the exhaustion branch applied at a concrete exhausted
state. -/
theorem reconnect_exhaustion_and_reconfigure_w :
    (connStep { attempts := 5, timer := none, socketActive := false }
        ConnEvent.closeEvent).timer =
      ConnState.timer { attempts := 5, timer := none, socketActive := false } ∧
    runConn initialConn fiveFailureRun =
      { attempts := 5, timer := none, socketActive := false } ∧
    connStep { attempts := 5, timer := none, socketActive := false }
        ConnEvent.configure = initialConn ∧
    connStep (connStep { attempts := 5, timer := none, socketActive := false }
        ConnEvent.configure) ConnEvent.connect =
      { attempts := 1, timer := none, socketActive := true } :=
  reconnect_exhaustion_and_reconfigure
    { attempts := 5, timer := none, socketActive := false } (by decide)

/-- C3: a transport failure is idempotent — a second failure arriving
before the pending reconnect timer fires changes nothing, so exactly one
reconnect is scheduled; and when a timer is already armed, a failure
leaves that same timer (same delay) in place. -/
theorem close_idempotent_single_timer (s : ConnState) :
    connStep (connStep s .closeEvent) .closeEvent = connStep s .closeEvent ∧
    (∀ d : Nat, s.timer = some d → (connStep s .closeEvent).timer = some d) := by
  obtain ⟨a, t, k⟩ := s
  by_cases ha : a < 5 <;> rcases t with _ | d0 <;> simp [connStep, ha]

/-- C3 witness: a failure while a 3000 ms timer is armed keeps that single
timer. -/
theorem close_idempotent_single_timer_w :
    connStep (connStep { attempts := 1, timer := some 3000, socketActive := true }
        ConnEvent.closeEvent) ConnEvent.closeEvent =
      connStep { attempts := 1, timer := some 3000, socketActive := true }
        ConnEvent.closeEvent ∧
    (connStep { attempts := 1, timer := some 3000, socketActive := true }
        ConnEvent.closeEvent).timer = some 3000 :=
  ⟨(close_idempotent_single_timer
      { attempts := 1, timer := some 3000, socketActive := true }).1,
   (close_idempotent_single_timer
      { attempts := 1, timer := some 3000, socketActive := true }).2 3000 rfl⟩

/-- C4: a reconnect scheduled after a failure at attempt count `attempt`
uses delay `min (3000 + attempt * 2000) 15000`; a failure changes the
pending-timer field only when `attempt < 5`; and a firing timer increments
the attempt counter by exactly one. -/
theorem backoff_schedule_policy (s : ConnState) (d : Nat) :
    (s.timer = none → s.attempts < 5 →
      (connStep s .closeEvent).timer =
        some (min (3000 + s.attempts * 2000) 15000)) ∧
    ((connStep s .closeEvent).timer ≠ s.timer → s.attempts < 5) ∧
    (s.timer = some d → s.socketActive = false →
      (connStep s .timerFire).attempts = s.attempts + 1) := by
  obtain ⟨a, t, k⟩ := s
  by_cases ha : a < 5 <;> rcases t with _ | d0 <;> rcases k with _ | _ <;>
    simp [connStep, backoffDelay, ha]

/-- C4 witness: at attempt count 2 with no timer, a failure schedules the
7000 ms backoff; the firing timer then makes attempt 3. -/
theorem backoff_schedule_policy_w :
    (connStep { attempts := 2, timer := none, socketActive := false }
        ConnEvent.closeEvent).timer = some (min (3000 + 2 * 2000) 15000) ∧
    (2 : Nat) < 5 ∧
    (connStep { attempts := 2, timer := some 7000, socketActive := false }
        ConnEvent.timerFire).attempts = 2 + 1 :=
  ⟨(backoff_schedule_policy
      { attempts := 2, timer := none, socketActive := false } 7000).1 rfl
      (by decide),
   (backoff_schedule_policy
      { attempts := 2, timer := none, socketActive := false } 7000).2.1
      (by decide),
   (backoff_schedule_policy
      { attempts := 2, timer := some 7000, socketActive := false } 7000).2.2
      rfl rfl⟩

/-- C5: for every throttle value, both halves of the axis are encoded: a
non-negative value becomes `throttle_forward = v, throttle_backward = 0`
and a negative value becomes `throttle_forward = 0,
throttle_backward = abs v` (so releasing at 0 sends both halves 0). -/
theorem throttle_axis_split (v : Int) (g : Nat) (l a : Bool) :
    (0 ≤ v → handleThrottleChange v g l a =
      [axisMessage (strToChars "throttle_forward") (.num v) g l a,
       axisMessage (strToChars "throttle_backward") (.num 0) g l a]) ∧
    (v < 0 → handleThrottleChange v g l a =
      [axisMessage (strToChars "throttle_forward") (.num 0) g l a,
       axisMessage (strToChars "throttle_backward") (.num |v|) g l a]) := by
  constructor
  · intro h
    simp [handleThrottleChange, h]
  · intro h
    rw [handleThrottleChange, if_neg (by omega)]

/-- C5 witness: throttle +42, -42 and release (0) encoded concretely. -/
theorem throttle_axis_split_w :
    handleThrottleChange 42 1 false false =
      [axisMessage (strToChars "throttle_forward") (.num 42) 1 false false,
       axisMessage (strToChars "throttle_backward") (.num 0) 1 false false] ∧
    handleThrottleChange (-42) 1 false false =
      [axisMessage (strToChars "throttle_forward") (.num 0) 1 false false,
       axisMessage (strToChars "throttle_backward") (.num 42) 1 false false] ∧
    handleThrottleChange 0 1 false false =
      [axisMessage (strToChars "throttle_forward") (.num 0) 1 false false,
       axisMessage (strToChars "throttle_backward") (.num 0) 1 false false] :=
  ⟨(throttle_axis_split 42 1 false false).1 (by decide),
   by simpa using (throttle_axis_split (-42) 1 false false).2 (by decide),
   (throttle_axis_split 0 1 false false).1 (by decide)⟩

/-- C6 counterexample: the dedicated settings message carries only the
fields `type`, `gear`, `lights`, `auto` — the `value` field required by
the claim is absent. -/
theorem settings_message_lacks_value :
    (settingsMessage 1 false false).map Prod.fst =
      [strToChars "type", strToChars "gear", strToChars "lights",
       strToChars "auto"] ∧
    List.lookup (strToChars "value") (settingsMessage 1 false false) = none := by
  decide

/-- C6 amended: every axis message sent by `sendCommand` carries the five
fields `type`, `value`, `gear`, `lights`, `auto`; the dedicated settings
message carries `type`, `gear`, `lights`, `auto` and omits `value`. -/
theorem wire_message_fields (o : Bool) (t : List Char) (v : JVal) (g : Nat)
    (l a : Bool) :
    (∀ m : WireMsg, sendCommand o t v g l a = some m →
      m.map Prod.fst =
        [strToChars "type", strToChars "value", strToChars "gear",
         strToChars "lights", strToChars "auto"]) ∧
    (settingsMessage g l a).map Prod.fst =
      [strToChars "type", strToChars "gear", strToChars "lights",
       strToChars "auto"] ∧
    List.lookup (strToChars "value") (settingsMessage g l a) = none := by
  have e1 : (strToChars "value" == strToChars "type") = false := by decide
  have e2 : (strToChars "value" == strToChars "gear") = false := by decide
  have e3 : (strToChars "value" == strToChars "lights") = false := by decide
  have e4 : (strToChars "value" == strToChars "auto") = false := by decide
  refine ⟨?_, rfl, ?_⟩
  · intro m hm
    cases o with
    | false => simp [sendCommand] at hm
    | true =>
        simp only [sendCommand, if_pos, Option.some.injEq] at hm
        subst hm
        rfl
  · simp [settingsMessage, List.lookup, e1, e2, e3, e4]

/-- C6 amended witness: `sendCommand` over an open link at a concrete
input yields a message with exactly the five fields. -/
theorem wire_message_fields_w :
    (axisMessage (strToChars "brake") (JVal.num 10) 2 true false).map Prod.fst =
      [strToChars "type", strToChars "value", strToChars "gear",
       strToChars "lights", strToChars "auto"] ∧
    List.lookup (strToChars "value") (settingsMessage 2 true false) = none :=
  ⟨(wire_message_fields true (strToChars "brake") (JVal.num 10) 2 true
      false).1 (axisMessage (strToChars "brake") (JVal.num 10) 2 true false)
      rfl,
   (wire_message_fields true (strToChars "brake") (JVal.num 10) 2 true
      false).2.2⟩

/-- C8 counterexample: a resize end performs no store write, while an
intermediate resize move does persist the size — contradicting the claim
that the rect is persisted on every committed resize end and never on
intermediate moves. -/
theorem resize_persistence_counterexample :
    (resizeRelease { px := 20, py := 120, w := 300, h := 200 }).2 = [] ∧
    (resizeMove 400 800 { px := 20, py := 120, w := 300, h := 200 }
        300 200 10 10).2 = [StoreWrite.size 310 210] := by
  decide

/-- C8 amended: a committed drag end persists the clamped position and a
drag move persists nothing; the size is persisted on every resize move
event, and the resize end itself performs no store write. -/
theorem gesture_persistence (vw vh dx dy iw ih : Int) (s : CamState) :
    (dragRelease vw vh s dx dy).2 =
      [StoreWrite.position (max 0 (min (vw - s.w) (s.px + dx)))
        (max 0 (min (vh - s.h) (s.py + dy)))] ∧
    (dragMove s).2 = [] ∧
    (resizeMove vw vh s iw ih dx dy).2 =
      [StoreWrite.size (max 150 (min (vw - 40) (iw + dx)))
        (max 100 (min (vh - 100) (ih + dy)))] ∧
    (resizeRelease s).2 = [] := by
  refine ⟨rfl, rfl, rfl, rfl⟩

/-- C10: a committed drag changes only the position, clamped per axis into
the viewport, leaving the size unchanged; a resize move changes only the
size, clamped to width in `[150, vw - 40]` and height in
`[100, vh - 100]`, leaving the position unchanged. -/
theorem gesture_clamping (vw vh dx dy iw ih rdx rdy : Int) (s : CamState)
    (hw : s.w ≤ vw) (hh : s.h ≤ vh) (hvw : 190 ≤ vw) (hvh : 200 ≤ vh) :
    (0 ≤ ((dragRelease vw vh s dx dy).1).px ∧
     ((dragRelease vw vh s dx dy).1).px ≤ vw - s.w ∧
     0 ≤ ((dragRelease vw vh s dx dy).1).py ∧
     ((dragRelease vw vh s dx dy).1).py ≤ vh - s.h ∧
     ((dragRelease vw vh s dx dy).1).w = s.w ∧
     ((dragRelease vw vh s dx dy).1).h = s.h) ∧
    (((resizeMove vw vh s iw ih rdx rdy).1).px = s.px ∧
     ((resizeMove vw vh s iw ih rdx rdy).1).py = s.py ∧
     150 ≤ ((resizeMove vw vh s iw ih rdx rdy).1).w ∧
     ((resizeMove vw vh s iw ih rdx rdy).1).w ≤ vw - 40 ∧
     100 ≤ ((resizeMove vw vh s iw ih rdx rdy).1).h ∧
     ((resizeMove vw vh s iw ih rdx rdy).1).h ≤ vh - 100) := by
  refine ⟨⟨?_, ?_, ?_, ?_, rfl, rfl⟩, rfl, rfl, ?_, ?_, ?_, ?_⟩ <;>
    (dsimp only [dragRelease, resizeMove]; omega)

/-- C10 witness: the spec's example — a 300 by 200 overlay in a 400 by 800
viewport dragged by (+1000, +1000) — instantiates the theorem; the clamped
result is (100, 600). -/
theorem gesture_clamping_w :
    ((0 ≤ ((dragRelease 400 800 { px := 20, py := 120, w := 300, h := 200 }
        1000 1000).1).px ∧
      ((dragRelease 400 800 { px := 20, py := 120, w := 300, h := 200 }
        1000 1000).1).px ≤ 400 - (300 : Int) ∧
      0 ≤ ((dragRelease 400 800 { px := 20, py := 120, w := 300, h := 200 }
        1000 1000).1).py ∧
      ((dragRelease 400 800 { px := 20, py := 120, w := 300, h := 200 }
        1000 1000).1).py ≤ 800 - (200 : Int) ∧
      ((dragRelease 400 800 { px := 20, py := 120, w := 300, h := 200 }
        1000 1000).1).w = (300 : Int) ∧
      ((dragRelease 400 800 { px := 20, py := 120, w := 300, h := 200 }
        1000 1000).1).h = (200 : Int)) ∧
     (((resizeMove 400 800 { px := 20, py := 120, w := 300, h := 200 }
        300 200 (-10000) (-10000)).1).px = (20 : Int) ∧
      ((resizeMove 400 800 { px := 20, py := 120, w := 300, h := 200 }
        300 200 (-10000) (-10000)).1).py = (120 : Int) ∧
      150 ≤ ((resizeMove 400 800 { px := 20, py := 120, w := 300, h := 200 }
        300 200 (-10000) (-10000)).1).w ∧
      ((resizeMove 400 800 { px := 20, py := 120, w := 300, h := 200 }
        300 200 (-10000) (-10000)).1).w ≤ 400 - (40 : Int) ∧
      100 ≤ ((resizeMove 400 800 { px := 20, py := 120, w := 300, h := 200 }
        300 200 (-10000) (-10000)).1).h ∧
      ((resizeMove 400 800 { px := 20, py := 120, w := 300, h := 200 }
        300 200 (-10000) (-10000)).1).h ≤ 800 - (100 : Int))) ∧
    ((dragRelease 400 800 { px := 20, py := 120, w := 300, h := 200 }
        1000 1000).1).px = 100 ∧
    ((dragRelease 400 800 { px := 20, py := 120, w := 300, h := 200 }
        1000 1000).1).py = 600 ∧
    ((resizeMove 400 800 { px := 20, py := 120, w := 300, h := 200 }
        300 200 (-10000) (-10000)).1).w = 150 ∧
    ((resizeMove 400 800 { px := 20, py := 120, w := 300, h := 200 }
        300 200 (-10000) (-10000)).1).h = 100 :=
  ⟨gesture_clamping 400 800 1000 1000 300 200 (-10000) (-10000)
      { px := 20, py := 120, w := 300, h := 200 }
      (by decide) (by decide) (by decide) (by decide),
   by decide, by decide, by decide, by decide⟩

/-- A list is unchanged by `dropWhile` when its head fails the test. -/
theorem dropWhile_eq_self_head (q : Char → Bool) (l : List Char)
    (h : ∀ c, l.head? = some c → q c = false) : l.dropWhile q = l := by
  cases l with
  | nil => rfl
  | cons c rest => exact List.dropWhile_cons_of_neg (by simp [h c rfl])

/-- When `trimChars` fixes a string, both one-sided trims are trivial. -/
theorem trim_eq_self_parts (s : List Char) (h : trimChars s = s) :
    trimLeftChars s = s ∧ s.reverse.dropWhile isWsChar = s.reverse := by
  have hsub : trimLeftChars s <:+ s := List.dropWhile_suffix isWsChar
  have h1 : (trimChars s).length ≤ (trimLeftChars s).length := by
    unfold trimChars
    calc ((trimLeftChars s).reverse.dropWhile isWsChar).reverse.length
        = ((trimLeftChars s).reverse.dropWhile isWsChar).length :=
          List.length_reverse _
      _ ≤ (trimLeftChars s).reverse.length := (List.dropWhile_suffix _).length_le
      _ = (trimLeftChars s).length := List.length_reverse _
  have h2 : (trimLeftChars s).length ≤ s.length := hsub.length_le
  have h3 : (trimChars s).length = s.length := by rw [h]
  have h4 : trimLeftChars s = s := hsub.eq_of_length (by omega)
  refine ⟨h4, ?_⟩
  have h5 : trimChars s = (s.reverse.dropWhile isWsChar).reverse := by
    unfold trimChars
    rw [h4]
  rw [h5] at h
  have h6 := congrArg List.reverse h
  rwa [List.reverse_reverse] at h6

/-- A string unchanged by the left trim has a non-whitespace head. -/
theorem head_not_ws (s : List Char) (h : trimLeftChars s = s) :
    ∀ c, s.head? = some c → isWsChar c = false := by
  intro c hc
  cases s with
  | nil => exact Option.noConfusion hc
  | cons c0 rest =>
      have hcc : c0 = c := by simpa using hc
      subst hcc
      by_contra hw
      have hw2 : isWsChar c0 = true := by simpa using hw
      have he : trimLeftChars (c0 :: rest) = rest.dropWhile isWsChar := by
        simp [trimLeftChars, List.dropWhile_cons_of_pos hw2]
      rw [he] at h
      have hlen : (rest.dropWhile isWsChar).length ≤ rest.length :=
        (List.dropWhile_suffix _).length_le
      have hlen2 := congrArg List.length h
      simp at hlen2
      omega

/-- Whitespace characters are fixed points of `Char.toLower`. -/
theorem ws_toLower_fixed (c : Char) (h : isWsChar c = true) :
    Char.toLower c = c := by
  simp [isWsChar, Char.isWhitespace] at h
  rcases h with ((h | h) | h) | h <;> subst h <;> decide

/-- The head of a case-variant of one of the scheme literals is not
whitespace. -/
theorem scheme_variant_head_not_ws (p : List Char) (c0 : Char)
    (hp : lowerList p = strToChars "http://" ∨
      lowerList p = strToChars "https://" ∨
        lowerList p = strToChars "ws://" ∨ lowerList p = strToChars "wss://")
    (hc : p.head? = some c0) : isWsChar c0 = false := by
  have key : ∀ (q : List Char) (x : Char), lowerList p = q → q.head? = some x →
      Char.toLower c0 = x := by
    intro q x hq hx
    have hh := congrArg List.head? hq
    rw [lowerList, List.head?_map, hc, hx] at hh
    simpa using hh
  by_contra hw
  have hw2 : isWsChar c0 = true := by simpa using hw
  have hfix := ws_toLower_fixed c0 hw2
  rcases hp with hp | hp | hp | hp
  · have hx := key _ 'h' hp (by decide)
    rw [hfix] at hx
    subst hx
    exact absurd hw2 (by decide)
  · have hx := key _ 'h' hp (by decide)
    rw [hfix] at hx
    subst hx
    exact absurd hw2 (by decide)
  · have hx := key _ 'w' hp (by decide)
    rw [hfix] at hx
    subst hx
    exact absurd hw2 (by decide)
  · have hx := key _ 'w' hp (by decide)
    rw [hfix] at hx
    subst hx
    exact absurd hw2 (by decide)

/-- `startsWithLower` restricted to an initial segment of the pattern. -/
theorem startsWithLower_of_append (p r s : List Char)
    (h : startsWithLower (p ++ r) s) : startsWithLower p s := by
  unfold startsWithLower at h ⊢
  have ht := congrArg (List.take p.length) h
  rw [List.take_left] at ht
  simp only [lowerList] at ht ⊢
  rw [← List.map_take, List.take_take] at ht
  rwa [show min p.length (p ++ r).length = p.length by
    rw [List.length_append]; omega] at ht

/-- Appending trailing slashes cannot create a match for a slash-free
pattern. -/
theorem not_startsWithLower_append_slashes (q s : List Char) (k : Nat)
    (hq : '/' ∉ q) (h : ¬ startsWithLower q s) :
    ¬ startsWithLower q (s ++ List.replicate k '/') := by
  intro hc
  unfold startsWithLower at hc h
  by_cases hls : q.length ≤ s.length
  · rw [List.take_append_of_le_length hls] at hc
    exact h hc
  · push_neg at hls
    have hlen := congrArg List.length hc
    simp only [lowerList, List.length_map, List.length_take, List.length_append,
      List.length_replicate] at hlen
    have hel := congrArg (fun l => l[s.length]?) hc
    simp only [lowerList, List.getElem?_map] at hel
    rw [List.getElem?_take, if_pos hls,
      List.getElem?_append_right (le_refl _), Nat.sub_self,
      List.getElem?_replicate, if_pos (by omega),
      List.getElem?_eq_getElem hls] at hel
    have hval : Char.toLower '/' = q[s.length] := by simpa using hel
    have hmem : q[s.length] ∈ q := List.getElem_mem hls
    rw [← hval] at hmem
    exact hq (by simpa using hmem)

/-- A case-variant of a pattern is a match for it. -/
theorem startsWithLower_append_self (p t q : List Char) (hp : lowerList p = q) :
    startsWithLower q (p ++ t) := by
  have hl : p.length = q.length := by
    rw [← hp]
    simp [lowerList]
  unfold startsWithLower
  rw [List.take_append_of_le_length hl.ge, List.take_of_length_le hl.le, hp]

/-- A string beginning with a case-variant of `p` cannot match a pattern
that no extension of `lowerList p` equals. -/
theorem not_startsWithLower_append_of_ne (p t q : List Char)
    (hle : p.length ≤ q.length) (hp : ∀ x : List Char, lowerList p ++ x ≠ q) :
    ¬ startsWithLower q (p ++ t) := by
  intro hc
  unfold startsWithLower at hc
  rw [List.take_append_eq_append_take, List.take_of_length_le hle] at hc
  simp only [lowerList, List.map_append] at hc
  exact hp _ hc

/-- `http://` extended by anything is never `https://`. -/
theorem http_append_ne_https (x : List Char) :
    strToChars "http://" ++ x ≠ strToChars "https://" := by
  intro h
  rw [show strToChars "http://" = ['h', 't', 't', 'p', ':', '/', '/'] from by decide,
    show strToChars "https://" = ['h', 't', 't', 'p', 's', ':', '/', '/'] from by decide] at h
  simp at h

/-- `ws://` extended by anything is never `https://`. -/
theorem ws_append_ne_https (x : List Char) :
    strToChars "ws://" ++ x ≠ strToChars "https://" := by
  intro h
  rw [show strToChars "ws://" = ['w', 's', ':', '/', '/'] from by decide,
    show strToChars "https://" = ['h', 't', 't', 'p', 's', ':', '/', '/'] from by decide] at h
  simp at h

/-- `ws://` extended by anything is never `http://`. -/
theorem ws_append_ne_http (x : List Char) :
    strToChars "ws://" ++ x ≠ strToChars "http://" := by
  intro h
  rw [show strToChars "ws://" = ['w', 's', ':', '/', '/'] from by decide,
    show strToChars "http://" = ['h', 't', 't', 'p', ':', '/', '/'] from by decide] at h
  simp at h

/-- `wss://` extended by anything is never `https://`. -/
theorem wss_append_ne_https (x : List Char) :
    strToChars "wss://" ++ x ≠ strToChars "https://" := by
  intro h
  rw [show strToChars "wss://" = ['w', 's', 's', ':', '/', '/'] from by decide,
    show strToChars "https://" = ['h', 't', 't', 'p', 's', ':', '/', '/'] from by decide] at h
  simp at h

/-- `wss://` extended by anything is never `http://`. -/
theorem wss_append_ne_http (x : List Char) :
    strToChars "wss://" ++ x ≠ strToChars "http://" := by
  intro h
  rw [show strToChars "wss://" = ['w', 's', 's', ':', '/', '/'] from by decide,
    show strToChars "http://" = ['h', 't', 't', 'p', ':', '/', '/'] from by decide] at h
  simp at h

/-- `ws://` extended by anything is never `wss://`. -/
theorem ws_append_ne_wss (x : List Char) :
    strToChars "ws://" ++ x ≠ strToChars "wss://" := by
  intro h
  rw [show strToChars "ws://" = ['w', 's', ':', '/', '/'] from by decide,
    show strToChars "wss://" = ['w', 's', 's', ':', '/', '/'] from by decide] at h
  simp at h

/-- The http-scheme strip leaves any string with no scheme start
unchanged. -/
theorem stripHttpScheme_eq_self (s : List Char) (h : noSchemeStart s) :
    stripHttpScheme s = s := by
  have e1 : strToChars "https://" = strToChars "https:" ++ strToChars "//" := by
    decide
  have e2 : strToChars "http://" = strToChars "http:" ++ strToChars "//" := by
    decide
  have h1 : ¬ startsWithLower (strToChars "https://") s := by
    intro hc
    rw [e1] at hc
    exact h.2.1 (startsWithLower_of_append _ _ _ hc)
  have h2 : ¬ startsWithLower (strToChars "http://") s := by
    intro hc
    rw [e2] at hc
    exact h.1 (startsWithLower_of_append _ _ _ hc)
  unfold stripHttpScheme
  rw [if_neg h1, if_neg h2]

/-- The ws-scheme strip leaves any string with no scheme start unchanged. -/
theorem stripWsScheme_eq_self (s : List Char) (h : noSchemeStart s) :
    stripWsScheme s = s := by
  have e1 : strToChars "wss://" = strToChars "wss:" ++ strToChars "//" := by
    decide
  have e2 : strToChars "ws://" = strToChars "ws:" ++ strToChars "//" := by
    decide
  have h1 : ¬ startsWithLower (strToChars "wss://") s := by
    intro hc
    rw [e1] at hc
    exact h.2.2.2 (startsWithLower_of_append _ _ _ hc)
  have h2 : ¬ startsWithLower (strToChars "ws://") s := by
    intro hc
    rw [e2] at hc
    exact h.2.2.1 (startsWithLower_of_append _ _ _ hc)
  unfold stripWsScheme
  rw [if_neg h1, if_neg h2]

/-- The http-scheme strip removes exactly a leading case-variant of
`http://`. -/
theorem stripHttpScheme_strips_http (p t : List Char)
    (hp : lowerList p = strToChars "http://") :
    stripHttpScheme (p ++ t) = t := by
  have hl : p.length = 7 := by
    have hlen := congrArg List.length hp
    simpa [lowerList] using hlen
  have hneg : ¬ startsWithLower (strToChars "https://") (p ++ t) := by
    apply not_startsWithLower_append_of_ne
    · rw [hl]
      decide
    · intro x
      rw [hp]
      exact http_append_ne_https x
  have hpos : startsWithLower (strToChars "http://") (p ++ t) :=
    startsWithLower_append_self p t _ hp
  unfold stripHttpScheme
  rw [if_neg hneg, if_pos hpos, show (7 : Nat) = p.length from hl.symm]
  exact List.drop_left p t

/-- The http-scheme strip removes exactly a leading case-variant of
`https://`. -/
theorem stripHttpScheme_strips_https (p t : List Char)
    (hp : lowerList p = strToChars "https://") :
    stripHttpScheme (p ++ t) = t := by
  have hl : p.length = 8 := by
    have hlen := congrArg List.length hp
    simpa [lowerList] using hlen
  have hpos : startsWithLower (strToChars "https://") (p ++ t) :=
    startsWithLower_append_self p t _ hp
  unfold stripHttpScheme
  rw [if_pos hpos, show (8 : Nat) = p.length from hl.symm]
  exact List.drop_left p t

/-- The http-scheme strip ignores a leading ws-scheme variant. -/
theorem stripHttpScheme_ws_id (p t : List Char)
    (hp : lowerList p = strToChars "ws://" ∨
      lowerList p = strToChars "wss://") :
    stripHttpScheme (p ++ t) = p ++ t := by
  rcases hp with hp | hp
  · have hl : p.length = 5 := by
      have hlen := congrArg List.length hp
      simpa [lowerList] using hlen
    have h1 : ¬ startsWithLower (strToChars "https://") (p ++ t) := by
      apply not_startsWithLower_append_of_ne
      · rw [hl]
        decide
      · intro x
        rw [hp]
        exact ws_append_ne_https x
    have h2 : ¬ startsWithLower (strToChars "http://") (p ++ t) := by
      apply not_startsWithLower_append_of_ne
      · rw [hl]
        decide
      · intro x
        rw [hp]
        exact ws_append_ne_http x
    unfold stripHttpScheme
    rw [if_neg h1, if_neg h2]
  · have hl : p.length = 6 := by
      have hlen := congrArg List.length hp
      simpa [lowerList] using hlen
    have h1 : ¬ startsWithLower (strToChars "https://") (p ++ t) := by
      apply not_startsWithLower_append_of_ne
      · rw [hl]
        decide
      · intro x
        rw [hp]
        exact wss_append_ne_https x
    have h2 : ¬ startsWithLower (strToChars "http://") (p ++ t) := by
      apply not_startsWithLower_append_of_ne
      · rw [hl]
        decide
      · intro x
        rw [hp]
        exact wss_append_ne_http x
    unfold stripHttpScheme
    rw [if_neg h1, if_neg h2]

/-- The ws-scheme strip removes exactly a leading case-variant of
`ws://`. -/
theorem stripWsScheme_strips_ws (p t : List Char)
    (hp : lowerList p = strToChars "ws://") :
    stripWsScheme (p ++ t) = t := by
  have hl : p.length = 5 := by
    have hlen := congrArg List.length hp
    simpa [lowerList] using hlen
  have hneg : ¬ startsWithLower (strToChars "wss://") (p ++ t) := by
    apply not_startsWithLower_append_of_ne
    · rw [hl]
      decide
    · intro x
      rw [hp]
      exact ws_append_ne_wss x
  have hpos : startsWithLower (strToChars "ws://") (p ++ t) :=
    startsWithLower_append_self p t _ hp
  unfold stripWsScheme
  rw [if_neg hneg, if_pos hpos, show (5 : Nat) = p.length from hl.symm]
  exact List.drop_left p t

/-- The ws-scheme strip removes exactly a leading case-variant of
`wss://`. -/
theorem stripWsScheme_strips_wss (p t : List Char)
    (hp : lowerList p = strToChars "wss://") :
    stripWsScheme (p ++ t) = t := by
  have hl : p.length = 6 := by
    have hlen := congrArg List.length hp
    simpa [lowerList] using hlen
  have hpos : startsWithLower (strToChars "wss://") (p ++ t) :=
    startsWithLower_append_self p t _ hp
  unfold stripWsScheme
  rw [if_pos hpos, show (6 : Nat) = p.length from hl.symm]
  exact List.drop_left p t

/-- Leading slash blocks are consumed by the slash `dropWhile`. -/
theorem dropWhile_slash_replicate (k : Nat) (l : List Char) :
    (List.replicate k '/' ++ l).dropWhile (fun c => c == '/') =
      l.dropWhile (fun c => c == '/') := by
  induction k with
  | zero => rfl
  | succ n ih =>
      rw [List.replicate_succ, List.cons_append,
        List.dropWhile_cons_of_pos (by decide)]
      exact ih

/-- Trailing slashes do not change the trailing-slash strip. -/
theorem stripSlashes_append_replicate (t : List Char) (k : Nat) :
    stripSlashesChars (t ++ List.replicate k '/') = stripSlashesChars t := by
  unfold stripSlashesChars
  rw [List.reverse_append, List.reverse_replicate, dropWhile_slash_replicate]

/-- Surrounding a trim-fixed nonempty string with a scheme variant and
trailing slashes keeps it trim-fixed. -/
theorem trim_extended (p s : List Char) (k : Nat) (hne : s ≠ [])
    (htr : trimChars s = s)
    (hp : p = [] ∨ (∀ c, p.head? = some c → isWsChar c = false)) :
    trimChars (p ++ s ++ List.replicate k '/') =
      p ++ s ++ List.replicate k '/' := by
  obtain ⟨hL, hR⟩ := trim_eq_self_parts s htr
  obtain ⟨c0, s', rfl⟩ : ∃ c0 s', s = c0 :: s' := by
    cases s with
    | nil => exact absurd rfl hne
    | cons c0 s' => exact ⟨c0, s', rfl⟩
  have hleft : (p ++ (c0 :: s') ++ List.replicate k '/').dropWhile isWsChar =
      p ++ (c0 :: s') ++ List.replicate k '/' := by
    apply dropWhile_eq_self_head
    intro c hc
    rcases hp with rfl | hp
    · simp only [List.nil_append, List.cons_append, List.head?_cons,
        Option.some.injEq] at hc
      subst hc
      exact head_not_ws _ hL c0 rfl
    · cases p with
      | nil =>
          simp only [List.nil_append, List.cons_append, List.head?_cons,
            Option.some.injEq] at hc
          subst hc
          exact head_not_ws _ hL c0 rfl
      | cons q0 q' =>
          simp only [List.cons_append, List.head?_cons,
            Option.some.injEq] at hc
          subst hc
          exact hp _ rfl
  have hrev : (p ++ (c0 :: s') ++ List.replicate k '/').reverse =
      List.replicate k '/' ++ ((c0 :: s').reverse ++ p.reverse) := by
    rw [List.reverse_append, List.reverse_append, List.reverse_replicate]
  have hright : (p ++ (c0 :: s') ++ List.replicate k '/').reverse.dropWhile
      isWsChar = (p ++ (c0 :: s') ++ List.replicate k '/').reverse := by
    apply dropWhile_eq_self_head
    intro c hc
    rw [hrev] at hc
    cases k with
    | zero =>
        simp only [List.replicate, List.nil_append] at hc
        obtain ⟨d0, r', hr'⟩ : ∃ d0 r', (c0 :: s').reverse = d0 :: r' := by
          cases hx : (c0 :: s').reverse with
          | nil => exact absurd hx (by simp)
          | cons d0 r' => exact ⟨d0, r', rfl⟩
        rw [hr'] at hc
        simp only [List.cons_append, List.head?_cons, Option.some.injEq] at hc
        subst hc
        have hg := head_not_ws _ hR
        rw [hr'] at hg
        exact hg _ rfl
    | succ n =>
        rw [List.replicate_succ] at hc
        simp only [List.cons_append, List.head?_cons, Option.some.injEq] at hc
        subst hc
        decide
  unfold trimChars trimLeftChars
  rw [hleft, hright, List.reverse_reverse]

/-- The cleaning pipelines of both URL derivations collapse a scheme
variant plus trailing slashes around a well-formed endpoint. -/
theorem cleanIP_extended (p s : List Char) (k : Nat) (hne : s ≠ [])
    (htr : trimChars s = s) (hns : noSchemeStart s)
    (hp : p = [] ∨ lowerList p = strToChars "http://" ∨
      lowerList p = strToChars "https://" ∨
        lowerList p = strToChars "ws://" ∨ lowerList p = strToChars "wss://") :
    cleanIP (p ++ s ++ List.replicate k '/') = stripSlashesChars s ∧
    cameraCleanIP (p ++ s ++ List.replicate k '/') = stripSlashesChars s ∧
    cleanIP s = stripSlashesChars s ∧
    cameraCleanIP s = stripSlashesChars s ∧
    trimChars (p ++ s ++ List.replicate k '/') =
      p ++ s ++ List.replicate k '/' := by
  have hnsr : noSchemeStart (s ++ List.replicate k '/') :=
    ⟨not_startsWithLower_append_slashes _ s k (by decide) hns.1,
     not_startsWithLower_append_slashes _ s k (by decide) hns.2.1,
     not_startsWithLower_append_slashes _ s k (by decide) hns.2.2.1,
     not_startsWithLower_append_slashes _ s k (by decide) hns.2.2.2⟩
  have hcore : stripWsScheme (stripHttpScheme
      (p ++ (s ++ List.replicate k '/'))) = s ++ List.replicate k '/' := by
    rcases hp with rfl | hp | hp | hp | hp
    · rw [List.nil_append, stripHttpScheme_eq_self _ hnsr,
        stripWsScheme_eq_self _ hnsr]
    · rw [stripHttpScheme_strips_http _ _ hp, stripWsScheme_eq_self _ hnsr]
    · rw [stripHttpScheme_strips_https _ _ hp, stripWsScheme_eq_self _ hnsr]
    · rw [stripHttpScheme_ws_id _ _ (Or.inl hp), stripWsScheme_strips_ws _ _ hp]
    · rw [stripHttpScheme_ws_id _ _ (Or.inr hp), stripWsScheme_strips_wss _ _ hp]
  have hid : stripWsScheme (stripHttpScheme s) = s := by
    rw [stripHttpScheme_eq_self _ hns, stripWsScheme_eq_self _ hns]
  have hhead : p = [] ∨ (∀ c, p.head? = some c → isWsChar c = false) := by
    rcases hp with rfl | hp | hp | hp | hp
    · exact Or.inl rfl
    · exact Or.inr (fun c hc => scheme_variant_head_not_ws p c (Or.inl hp) hc)
    · exact Or.inr (fun c hc =>
        scheme_variant_head_not_ws p c (Or.inr (Or.inl hp)) hc)
    · exact Or.inr (fun c hc =>
        scheme_variant_head_not_ws p c (Or.inr (Or.inr (Or.inl hp))) hc)
    · exact Or.inr (fun c hc =>
        scheme_variant_head_not_ws p c (Or.inr (Or.inr (Or.inr hp))) hc)
  have htrX := trim_extended p s k hne htr hhead
  refine ⟨?_, ?_, ?_, ?_, htrX⟩
  · unfold cleanIP
    rw [htrX, List.append_assoc, hcore, stripSlashes_append_replicate]
  · unfold cameraCleanIP
    rw [List.append_assoc, hcore, stripSlashes_append_replicate]
  · unfold cleanIP
    rw [htr, hid]
  · unfold cameraCleanIP
    rw [hid]

/-- C7 counterexample: `"http://a"` and `"http://http://a"` differ only by
one leading `http://` prefix, yet resolve to different descriptors — the
resolver strips at most one `http(s)://` and one `ws(s)://` prefix. -/
theorem scheme_affix_counterexample :
    resolveEndpoint (strToChars "http://http://a") ≠
      resolveEndpoint (strToChars "http://a") := by
  decide

/-- C7 amended: for a nonempty endpoint string with no surrounding
whitespace that does not itself begin with a scheme, prepending one
case-variant of `http://`, `https://`, `ws://` or `wss://` and appending
any number of trailing slashes leaves the resolved descriptor unchanged. -/
theorem resolve_affix_invariance (p s : List Char) (k : Nat) (hne : s ≠ [])
    (htr : trimChars s = s) (hns : noSchemeStart s)
    (hp : p = [] ∨ lowerList p = strToChars "http://" ∨
      lowerList p = strToChars "https://" ∨
        lowerList p = strToChars "ws://" ∨ lowerList p = strToChars "wss://") :
    resolveEndpoint (p ++ s ++ List.replicate k '/') = resolveEndpoint s := by
  obtain ⟨h1, h2, h3, h4, htrX⟩ := cleanIP_extended p s k hne htr hns hp
  unfold resolveEndpoint
  rw [htrX, htr]
  rw [if_neg (by
        intro hX
        rcases List.append_eq_nil.mp hX with ⟨hX1, hX2⟩
        exact hne (List.append_eq_nil.mp hX1).2),
      if_neg hne]
  unfold controlUrl cameraUrl
  rw [h1, h2, h3, h4]

/-- C7 amended witness: `"ws://192.168.1.100///"` (one prefix plus three
trailing slashes) resolves identically to `"192.168.1.100"`. -/
theorem resolve_affix_invariance_w :
    resolveEndpoint (strToChars "ws://" ++ strToChars "192.168.1.100" ++
        List.replicate 3 '/') =
      resolveEndpoint (strToChars "192.168.1.100") :=
  resolve_affix_invariance (strToChars "ws://") (strToChars "192.168.1.100") 3
    (by decide) (by decide) (by decide)
    (Or.inr (Or.inr (Or.inr (Or.inl (by decide)))))

/-- C9 counterexample: the malformed-bracket endpoint `"[::1"` does not
fail with `InvalidEndpoint`; resolution produces a descriptor (the only
failing inputs are whitespace-only strings). -/
theorem malformed_bracket_counterexample :
    resolveEndpoint (strToChars "[::1") =
      some { controlURL := strToChars "ws://[::1",
             mediaBaseURL := strToChars "http://[::1/camera" } := by
  decide

/-- C9 amended: resolution fails exactly on strings that trim to empty —
bracket errors are never detected — and for a plain (non-tunnel) endpoint
containing `':'` the cleaned string, brackets included, is embedded
verbatim in both URLs. -/
theorem resolver_bracket_passthrough (s : List Char) :
    (resolveEndpoint s = none ↔ trimChars s = []) ∧
    (isNgrokHost (cleanIP s) = false → (cleanIP s).contains ':' = true →
      isNgrokHost (cameraCleanIP s) = false →
      (cameraCleanIP s).contains ':' = true → trimChars s ≠ [] →
      resolveEndpoint s =
        some { controlURL := strToChars "ws://" ++ cleanIP s,
               mediaBaseURL := strToChars "http://" ++ cameraCleanIP s ++
                 strToChars "/camera" }) := by
  constructor
  · by_cases h : trimChars s = []
    · simp [resolveEndpoint, h]
    · simp [resolveEndpoint, h]
  · intro hn1 hc1 hn2 hc2 hne
    simp only [resolveEndpoint, controlUrl, cameraUrl, controlUrlOfClean,
      cameraUrlOfClean, hn1, hc1, hn2, hc2, hne, if_false, if_true,
      Bool.false_eq_true, if_neg hne]

/-- C9 amended witness: the bracketed IPv6 endpoint `"[2001:db8::1]"`
resolves with the bracketed literal preserved verbatim in both URLs. -/
theorem resolver_bracket_passthrough_w :
    resolveEndpoint (strToChars "[2001:db8::1]") =
      some { controlURL := strToChars "ws://" ++
               cleanIP (strToChars "[2001:db8::1]"),
             mediaBaseURL := strToChars "http://" ++
               cameraCleanIP (strToChars "[2001:db8::1]") ++
                 strToChars "/camera" } :=
  (resolver_bracket_passthrough (strToChars "[2001:db8::1]")).2
    (by decide) (by decide) (by decide) (by decide) (by decide)

example :
    resolveEndpoint (strToChars "abc123.ngrok-free.app") =
      some { controlURL := strToChars "wss://abc123.ngrok-free.app",
             mediaBaseURL :=
               strToChars "https://abc123.ngrok-free.app/camera" } := by
  decide

example : resolveEndpoint (strToChars "  ") = none := by decide

example :
    resolveEndpoint (strToChars "HTTP://10.0.0.2:9001///") =
      some { controlURL := strToChars "ws://10.0.0.2:9001",
             mediaBaseURL := strToChars "http://10.0.0.2:9001/camera" } := by
  decide

example :
    resolveEndpoint (strToChars "a.ngrok-free.dev:443") =
      some { controlURL := strToChars "wss://a.ngrok-free.dev",
             mediaBaseURL := strToChars "https://a.ngrok-free.dev/camera" } := by
  decide

example :
    runConn initialConn fiveFailureRun =
      { attempts := 5, timer := none, socketActive := false } := by decide
